import Mathlib

/-!
Shallow embedding of the card-lookup scripts (gci.py and gci-image.py):
the free-text command-operator parser of search_for_card, the result
filter and interactive selection of get_card_info, and the effect order
of capture_card.  Strings are modelled as lists of characters; the inputs
handled by the scripts are ASCII, so ASCII models of the Python string
predicates are used throughout.
-/

namespace Gci

/-- Leading- and trailing-whitespace removal, modelling Python str.strip
on the ASCII inputs used here. -/
def stripList (l : List Char) : List Char :=
  ((l.dropWhile Char.isWhitespace).reverse.dropWhile Char.isWhitespace).reverse

/-- Character-wise lowercasing, modelling Python str.lower on ASCII input. -/
def lowerList (l : List Char) : List Char :=
  l.map Char.toLower

/-- Substring test, modelling the Python operator (pat in s) for strings. -/
def containsSub (pat : List Char) : List Char → Bool
  | [] => pat.isPrefixOf []
  | c :: rest => pat.isPrefixOf (c :: rest) || containsSub pat rest

/-- Fuel-indexed removal of every non-overlapping occurrence of a literal
pattern, scanning left to right; one unit of fuel is spent per character
position, so fuel equal to the length of the string suffices for any
non-empty pattern. -/
def removeAllAux (pat : List Char) : Nat → List Char → List Char
  | _, [] => []
  | 0, s => s
  | fuel + 1, c :: rest =>
    if pat.isPrefixOf (c :: rest) then
      removeAllAux pat fuel (List.drop pat.length (c :: rest))
    else c :: removeAllAux pat fuel rest

/-- Removal of every non-overlapping occurrence of a literal pattern,
modelling re.sub with a literal pattern and empty replacement. -/
def removeAll (pat s : List Char) : List Char :=
  removeAllAux pat s.length s

/-- Word character of the number-operator character class: letters,
digits, underscore and hyphen. -/
def isWordChar (c : Char) : Bool :=
  c.isAlphanum || c = '_' || c = '-'

/-- Leftmost match of the variant-enabled operator: the captured group of
searching with the regular expression v=([^=]*), namely the maximal run
of non-equals characters after the first occurrence of v=. -/
def vSearch : List Char → Option (List Char)
  | [] => none
  | c :: rest =>
    if c = 'v' ∧ rest.head? = some '=' then
      some (List.takeWhile (fun x => x ≠ '=') (rest.drop 1))
    else vSearch rest

/-- Fuel-indexed removal of every non-overlapping match of v=([^=]*),
continuing the scan at the end of each match as re.sub does. -/
def vSubAllAux : Nat → List Char → List Char
  | _, [] => []
  | 0, s => s
  | fuel + 1, c :: rest =>
    if c = 'v' ∧ rest.head? = some '=' then
      vSubAllAux fuel (List.dropWhile (fun x => x ≠ '=') (rest.drop 1))
    else c :: vSubAllAux fuel rest

/-- Removal of every match of the variant-enabled operator pattern. -/
def vSubAll (s : List Char) : List Char :=
  vSubAllAux s.length s

/-- Leftmost match of the year operator: the captured group of searching
with y=(\d{2,4}), namely up to four (greedily) but at least two digits
following the first suitable occurrence of y=. -/
def ySearch : List Char → Option (List Char)
  | [] => none
  | c :: rest =>
    if c = 'y' ∧ rest.head? = some '=' ∧
        2 ≤ (List.takeWhile Char.isDigit (rest.drop 1)).length then
      some (List.take 4 (List.takeWhile Char.isDigit (rest.drop 1)))
    else ySearch rest

/-- Fuel-indexed removal of every non-overlapping match of y=(\d{2,4}). -/
def ySubAllAux : Nat → List Char → List Char
  | _, [] => []
  | 0, s => s
  | fuel + 1, c :: rest =>
    if c = 'y' ∧ rest.head? = some '=' ∧
        2 ≤ (List.takeWhile Char.isDigit (rest.drop 1)).length then
      ySubAllAux fuel
        (List.drop (min 4 (List.takeWhile Char.isDigit (rest.drop 1)).length)
          (rest.drop 1))
    else c :: ySubAllAux fuel rest

/-- Removal of every match of the year operator pattern. -/
def ySubAll (s : List Char) : List Char :=
  ySubAllAux s.length s

/-- Leftmost match of the number operator: the captured group of searching
with the pattern of one equals sign followed by at least one word, digit
or hyphen character, greedily. -/
def numSearch : List Char → Option (List Char)
  | [] => none
  | c :: rest =>
    if c = '=' ∧ 1 ≤ (List.takeWhile isWordChar rest).length then
      some (List.takeWhile isWordChar rest)
    else numSearch rest

/-- Fuel-indexed removal of every non-overlapping match of the number
operator pattern. -/
def numSubAllAux : Nat → List Char → List Char
  | _, [] => []
  | 0, s => s
  | fuel + 1, c :: rest =>
    if c = '=' ∧ 1 ≤ (List.takeWhile isWordChar rest).length then
      numSubAllAux fuel (List.drop (List.takeWhile isWordChar rest).length rest)
    else c :: numSubAllAux fuel rest

/-- Removal of every match of the number operator pattern. -/
def numSubAll (s : List Char) : List Char :=
  numSubAllAux s.length s

/-- Numeric value of a digit string, modelling Python int on an all-digit
string. -/
def digitsToNat (ds : List Char) : Nat :=
  ds.foldl (fun a c => 10 * a + (c.toNat - 48)) 0

/-- Two-digit year expansion of search_for_card: a value below 100 is
expanded against the current year, everything else is taken as-is. -/
def expandYear (year todayYear : Int) : Int :=
  if year < 100 then
    if year < todayYear - 2000 then 2000 + year else 1900 + year
  else year

/-- Value held by the year variable of search_for_card: the string it was
called with until the year operator fires, an integer afterwards. -/
inductive YearV
  | s : List Char → YearV
  | i : Int → YearV
deriving DecidableEq

/-- Local state of search_for_card that the operator-parsing block reads
and updates: card_name, year, card_number, variant_name, trading_card and
verbose. -/
structure SearchState where
  card_name : List Char
  year : YearV
  card_number : List Char
  variant_name : List Char
  trading_card : Bool
  verbose : Bool
deriving DecidableEq

/-- Operator-parsing block of search_for_card (gci-image.py, lines
114-162): given the current state and the stripped human-entered line, it
strips the trading-card marker, merges the line into the card name
(append after a leading plus, append whole line after a leading equals,
replace otherwise), then applies the variant, year, verbose and number
operators in that order, each removing its own matches from the working
name before the next operator is evaluated. -/
def search_for_card_parse (st : SearchState) (line : List Char)
    (todayYear : Int) : SearchState :=
  if line = [] then st
  else
    let tc1 := if containsSub ("t=").toList line then true else st.trading_card
    let new1 := if containsSub ("t=").toList line then removeAll ("t=").toList line else line
    let name1 :=
      if new1.head? = some '+' then st.card_name ++ ' ' :: new1.tail
      else if new1.head? = some '=' then st.card_name ++ ' ' :: new1
      else new1
    let var2 :=
      match vSearch name1 with
      | some v => stripList v
      | none => if containsSub ("nv=").toList name1 then [] else st.variant_name
    let name2 :=
      match vSearch name1 with
      | some _ => vSubAll name1
      | none =>
        if containsSub ("nv=").toList name1 then removeAll ("nv=").toList name1 else name1
    let year3 :=
      match ySearch name2 with
      | some ds => YearV.i (expandYear (Int.ofNat (digitsToNat ds)) todayYear)
      | none => st.year
    let name3 := match ySearch name2 with | some _ => ySubAll name2 | none => name2
    let verb4 := if containsSub ("V=").toList name3 then true else st.verbose
    let name4 :=
      if containsSub ("V=").toList name3 then removeAll ("V=").toList name3 else name3
    let num5 := match numSearch name4 with | some nm => nm | none => st.card_number
    let name5 := match numSearch name4 with | some _ => numSubAll name4 | none => name4
    { card_name := name5, year := year3, card_number := num5,
      variant_name := var2, trading_card := tc1, verbose := verb4 }

/-- Normalized product record built by get_card_info from one API
response entry (gci.py, lines 106-114); all fields are strings. -/
structure Product where
  Name : List Char
  Set : List Char
  Buy : List Char
  Sell : List Char
  PSA_9 : List Char
  PSA_10 : List Char
  URL : List Char
deriving DecidableEq

/-- Per-product filter of get_card_info (gci.py, lines 123-143): the
set name and product name are lowercased; a set year must appear in the
set name or product name, a card number must appear (stripped and
lowercased) in the product name, and a product whose name contains an
opening bracket is skipped when the stripped variant name is non-empty
and is not a substring of the lowercased product name. -/
def keepProduct (year card_num variant_name : List Char) (p : Product) : Bool :=
  let console := lowerList p.Set
  let name := lowerList p.Name
  if year ≠ [] ∧ containsSub year console = false ∧ containsSub year name = false then
    false
  else if card_num ≠ [] ∧ containsSub (lowerList (stripList card_num)) name = false then
    false
  else if name.contains '[' ∧ stripList variant_name ≠ [] ∧
      containsSub (stripList variant_name) name = false then
    false
  else true

/-- Result filtering of get_card_info (gci.py, lines 118-143): a
trading-card query keeps every product unfiltered, any other query keeps
the products passing keepProduct, in upstream order. -/
def filterProducts (trading_card : Bool) (year card_num variant_name : List Char)
    (products : List Product) : List Product :=
  if trading_card then products
  else products.filter (keepProduct year card_num variant_name)

/-- Integer parsing of one input line, modelling Python int on a string:
surrounding whitespace is ignored, an optional sign is followed by at
least one digit. -/
def pyInt? (s : List Char) : Option Int :=
  let t := stripList s
  match t with
  | '-' :: ds =>
    if ds ≠ [] ∧ ds.all Char.isDigit then some (-(digitsToNat ds : Int)) else none
  | '+' :: ds =>
    if ds ≠ [] ∧ ds.all Char.isDigit then some ((digitsToNat ds : Int)) else none
  | ds =>
    if ds ≠ [] ∧ ds.all Char.isDigit then some ((digitsToNat ds : Int)) else none

/-- Choice loop of the interactive menu (gci.py, lines 155-167): an empty
input line defaults to the string 1; a line that fails integer parsing
reprompts; the first line parsing as an integer ends the loop with that
integer, because a negative value breaks out, and any other value makes
the always-empty membership test of range(len, 1) fail, whose continue
re-checks the loop condition, which is now false since the value is no
longer a string.  The result is the first integer-parsable line, or none
when every supplied line fails to parse. -/
def menuChoice : List (List Char) → Option Int
  | [] => none
  | l :: rest =>
    match pyInt? (if l = [] then '1' :: [] else l) with
    | some n => some n
    | none => menuChoice rest

/-- List indexing with Python semantics: a non-negative index counts from
the front, a negative index counts from the back, and an out-of-range
index yields none (an IndexError in the source). -/
def pyIndex (l : List Product) (i : Int) : Option Product :=
  if 0 ≤ i then l.get? i.toNat
  else if (-i).toNat ≤ l.length then l.get? (l.length - (-i).toNat) else none

/-- Interactive selection of get_card_info for more than one survivor
(gci.py, lines 155-168): the menu choice n picks the record at position
n - 1 with Python index semantics.  The none cases (no parsable input
line, or an out-of-range index) leave the source blocked or raising. -/
def selectFrom (filtered : List Product) (inputs : List (List Char)) : Option Product :=
  match menuChoice inputs with
  | some n => pyIndex filtered (n - 1)
  | none => none

/-- The first 25 filtered results printed as the interactive menu
(gci.py, line 152). -/
def menuListing (filtered : List Product) : List Product :=
  filtered.take 25

/-- Outcome of the HTTP phase of get_card_info: a request failure raised
by requests, a JSON parse failure, or a response normalized to a product
list. -/
inductive HttpOutcome
  | fail
  | badJson
  | ok : List Product → HttpOutcome
deriving DecidableEq

/-- Value returned by get_card_info: the integer 1 on its error paths, a
product list on its normal path; crash marks the unmodelled stuck states
of the interactive menu (no parsable input, IndexError). -/
inductive GciRet
  | intv : Int → GciRet
  | listv : List Product → GciRet
  | crash
deriving DecidableEq

/-- Core of get_card_info (gci.py, lines 62-183): the precondition gate
(API key present and non-empty, card name non-empty, stripped year empty
or all digits) runs before the HTTP request, whose outcome is a
parameter; on success the products are filtered, an empty or singleton
result is returned as-is, and more than one survivor goes through the
interactive menu, after which the list collapses to the chosen record.
The browser and CSV side effects carry no decision logic and are not
modelled. -/
def get_card_info (api_key : Option (List Char)) (card_name : List Char)
    (year : List Char) (card_num : List Char) (trading_card : Bool)
    (variant_name : List Char) (verbose : Bool) (outcome : HttpOutcome)
    (menuInputs : List (List Char)) : GciRet :=
  if api_key = none ∨ api_key = some [] then GciRet.intv 1
  else if card_name = [] then GciRet.intv 1
  else
    let yearS := stripList year
    if yearS ≠ [] ∧ ¬(yearS.all Char.isDigit = true) then GciRet.intv 1
    else
      match outcome with
      | HttpOutcome.fail => GciRet.intv 1
      | HttpOutcome.badJson => GciRet.intv 1
      | HttpOutcome.ok products =>
        let filtered := filterProducts trading_card yearS card_num variant_name products
        if filtered = [] then GciRet.listv []
        else if filtered.length = 1 then GciRet.listv filtered
        else
          match selectFrom filtered menuInputs with
          | some r => GciRet.listv [r]
          | none => GciRet.crash

/-- Python truthiness of the value returned by get_card_info: a non-zero
integer and a non-empty list are truthy. -/
def truthy : GciRet → Bool
  | GciRet.intv n => n ≠ 0
  | GciRet.listv l => l ≠ []
  | GciRet.crash => false

/-- Exit code computed by main (gci.py, line 206): zero when the value
returned by get_card_info is truthy, one otherwise. -/
def mainExit (r : GciRet) : Nat :=
  if truthy r then 0 else 1

/-- Observable side effects of capture_card in order of occurrence. -/
inductive Effect
  | disableChroma
  | releaseCap
  | enableChroma
deriving DecidableEq

/-- Value produced by capture_card: early return of none when the camera
yields no frame, the encoded bytes on success, or the encoding failure
exception. -/
inductive CapRet
  | none'
  | bytes : List Char → CapRet
  | encodeError
deriving DecidableEq

/-- Effect trace and result of capture_card (gci-image.py, lines 33-52):
the Chroma Key source filter is disabled on entry; when the camera read
yields no frame the function returns none at once, so the capture device
is not released and the filter stays disabled; on a frame, the device is
released and the filter re-enabled before encoding. -/
def capture_card (frame : Option (List Char))
    (encodeOf : List Char → Option (List Char)) : List Effect × CapRet :=
  match frame with
  | none => ([Effect.disableChroma], CapRet.none')
  | some f =>
    ([Effect.disableChroma, Effect.releaseCap, Effect.enableChroma],
      match encodeOf f with
      | some bs => CapRet.bytes bs
      | none => CapRet.encodeError)

/-- Product record named Mike Trout with a bracketed Refractor tag, from
the set 2011 Topps. -/
def mtRefractor : Product :=
  { Name := ("Mike Trout [Refractor]").toList, Set := ("2011 Topps").toList,
    Buy := [], Sell := [], PSA_9 := [], PSA_10 := [], URL := [] }

/-- Product record named Mike Trout, from the set 2011 Topps. -/
def mtPlain : Product :=
  { Name := ("Mike Trout").toList, Set := ("2011 Topps").toList,
    Buy := [], Sell := [], PSA_9 := [], PSA_10 := [], URL := [] }

/-- Default parser state used by the concrete examples. -/
def exampleState : SearchState :=
  { card_name := ("Mike Trout").toList, year := YearV.s [], card_number := [],
    variant_name := [], trading_card := false, verbose := false }

/-- Packing a valid codepoint and unpacking it again is the identity. -/
theorem toNat_charOfNat_of_valid (n : Nat) (h : n.isValidChar) :
    (Char.ofNat n).toNat = n := by
  unfold Char.ofNat
  rw [dif_pos h]
  rfl

/-- Uppercase test expressed through the numeric codepoint. -/
theorem isUpper_eq_decide (c : Char) :
    c.isUpper = decide (65 ≤ c.toNat ∧ c.toNat ≤ 90) := by
  have h1 : ((65 : UInt32) ≤ c.val) ↔ (65 ≤ c.toNat) := by
    rw [UInt32.le_def, BitVec.le_def]
    exact Iff.rfl
  have h2 : (c.val ≤ (90 : UInt32)) ↔ (c.toNat ≤ 90) := by
    rw [UInt32.le_def, BitVec.le_def]
    exact Iff.rfl
  simp [Char.isUpper, h1, h2]

/-- Lowercasing a character never produces an uppercase character. -/
theorem isUpper_toLower_eq_false (c : Char) : (c.toLower).isUpper = false := by
  unfold Char.toLower
  by_cases h : 65 ≤ c.toNat ∧ c.toNat ≤ 90
  · rw [if_pos h, isUpper_eq_decide]
    have hv : (c.toNat + 32).isValidChar := Or.inl (by omega)
    rw [toNat_charOfNat_of_valid _ hv]
    simp only [decide_eq_false_iff_not]
    omega
  · rw [if_neg h, isUpper_eq_decide]
    simp only [decide_eq_false_iff_not]
    omega

/-- An uppercase character is not whitespace. -/
theorem isWhitespace_eq_false_of_isUpper {c : Char} (h : c.isUpper = true) :
    c.isWhitespace = false := by
  rw [isUpper_eq_decide, decide_eq_true_eq] at h
  have h1 : c ≠ ' ' := by intro he; subst he; exact absurd h (by decide)
  have h2 : c ≠ '\t' := by intro he; subst he; exact absurd h (by decide)
  have h3 : c ≠ '\r' := by intro he; subst he; exact absurd h (by decide)
  have h4 : c ≠ '\n' := by intro he; subst he; exact absurd h (by decide)
  simp [Char.isWhitespace, h1, h2, h3, h4]

/-- Every character of a matched substring occurs in the searched string. -/
theorem mem_of_containsSub {pat s : List Char} (h : containsSub pat s = true)
    {c : Char} (hc : c ∈ pat) : c ∈ s := by
  induction s with
  | nil =>
    rw [containsSub] at h
    rw [List.isPrefixOf_iff_prefix] at h
    rw [List.prefix_nil] at h
    subst h
    exact absurd hc (List.not_mem_nil c)
  | cons a rest ih =>
    rw [containsSub, Bool.or_eq_true] at h
    rcases h with h | h
    · rw [List.isPrefixOf_iff_prefix] at h
      exact h.subset hc
    · exact List.mem_cons_of_mem a (ih h)

/-- A member violating the dropped predicate survives dropWhile. -/
theorem mem_dropWhile_of_mem {p : Char → Bool} {l : List Char} {c : Char}
    (hc : c ∈ l) (hp : p c = false) : c ∈ l.dropWhile p := by
  induction l with
  | nil => exact absurd hc (List.not_mem_nil c)
  | cons a rest ih =>
    rw [List.dropWhile_cons]
    rcases List.mem_cons.mp hc with h | h
    · subst h
      rw [hp]
      simp
    · by_cases ha : p a = true
      · rw [if_pos ha]
        exact ih h
      · rw [if_neg ha]
        exact List.mem_cons_of_mem a h

/-- A non-whitespace member of a string survives stripping. -/
theorem mem_stripList_of_mem {l : List Char} {c : Char} (hc : c ∈ l)
    (hw : c.isWhitespace = false) : c ∈ stripList l := by
  unfold stripList
  rw [List.mem_reverse]
  apply mem_dropWhile_of_mem _ hw
  rw [List.mem_reverse]
  exact mem_dropWhile_of_mem hc hw

/-- A string containing an uppercase character is never a substring of a
lowercased string. -/
theorem containsSub_lowerList_eq_false {v s : List Char}
    (h : ∃ c ∈ v, c.isUpper = true) : containsSub v (lowerList s) = false := by
  obtain ⟨c, hcv, hcu⟩ := h
  by_contra hb
  rw [Bool.not_eq_false] at hb
  have hcs : c ∈ lowerList s := mem_of_containsSub hb hcv
  rw [lowerList, List.mem_map] at hcs
  obtain ⟨d, _, hd⟩ := hcs
  rw [← hd] at hcu
  rw [isUpper_toLower_eq_false] at hcu
  cases hcu

/-- C1: the claim states that with year 2011, empty number and empty
variant only the non-bracketed of the two example records survives
filtering; in the code an empty variant never rejects a bracketed
product, so both records survive. -/
theorem c1_bracket_filter_counterexample :
    filterProducts false (("2011").toList) [] [] [mtRefractor, mtPlain]
        = [mtRefractor, mtPlain] ∧
    ([mtRefractor, mtPlain] : List Product) ≠ [mtPlain] := by
  constructor
  · decide
  · decide

/-- C1 amended: a product whose lowercased name contains an opening
bracket and which passes the year and number checks is kept by the filter
exactly when the stripped variant is empty or occurs as a substring of
the lowercased product name; a bracketed product is rejected only by a
non-empty, non-matching variant. -/
theorem c1_bracket_filter_amended (year card_num variant_name : List Char)
    (p : Product)
    (hy : year = [] ∨ containsSub year (lowerList p.Set) = true ∨
      containsSub year (lowerList p.Name) = true)
    (hn : card_num = [] ∨
      containsSub (lowerList (stripList card_num)) (lowerList p.Name) = true)
    (hb : (lowerList p.Name).contains '[' = true) :
    keepProduct year card_num variant_name p =
      (decide (stripList variant_name = []) ||
        containsSub (stripList variant_name) (lowerList p.Name)) := by
  have h1 : ¬(year ≠ [] ∧ containsSub year (lowerList p.Set) = false ∧
      containsSub year (lowerList p.Name) = false) := by
    rintro ⟨ha, hb', hc'⟩
    rcases hy with h | h | h
    · exact ha h
    · rw [h] at hb'; cases hb'
    · rw [h] at hc'; cases hc'
  have h2 : ¬(card_num ≠ [] ∧
      containsSub (lowerList (stripList card_num)) (lowerList p.Name) = false) := by
    rintro ⟨ha, hb'⟩
    rcases hn with h | h
    · exact ha h
    · rw [h] at hb'; cases hb'
  simp only [keepProduct]
  rw [if_neg h1, if_neg h2]
  by_cases hv : stripList variant_name = []
  · rw [if_neg (by rintro ⟨_, hvne, _⟩; exact hvne hv)]
    simp [hv]
  · by_cases hcs : containsSub (stripList variant_name) (lowerList p.Name) = true
    · rw [if_neg (by rintro ⟨_, _, hf⟩; rw [hcs] at hf; cases hf)]
      simp [hcs]
    · rw [Bool.not_eq_true] at hcs
      rw [if_pos ⟨hb, hv, hcs⟩]
      simp [hv, hcs]

/-- Witness for c1_bracket_filter_amended at the bracketed example record
with year 2011, empty number and empty variant: the record is kept. -/
theorem c1_bracket_filter_amended_witness :
    keepProduct (("2011").toList) [] [] mtRefractor =
      (decide (stripList ([] : List Char) = []) ||
        containsSub (stripList ([] : List Char)) (lowerList mtRefractor.Name)) :=
  c1_bracket_filter_amended (("2011").toList) [] [] mtRefractor
    (Or.inr (Or.inl (by decide))) (Or.inl rfl) (by decide)

/-- C2: the claim states exit code 1 on every fatal precondition failure;
in the code get_card_info returns the integer 1 on those paths, main
tests the return value for truthiness, and 1 is truthy, so the process
exits with 0.  Evaluated here with the API key missing. -/
theorem c2_exit_code_bug :
    get_card_info none (("x").toList) [] [] false [] false HttpOutcome.fail []
        = GciRet.intv 1 ∧
    mainExit (get_card_info none (("x").toList) [] [] false [] false
        HttpOutcome.fail []) = 0 := by
  constructor
  · decide
  · decide

/-- C3: the claim states that a line containing both the bare nv=
operator and v=X yields an empty variant; in the code the variant-enabled
regex is tried first and its pattern v= also matches inside nv=, so on
the line nv= v=X the enabled branch fires and the variant becomes the
captured text v, not the empty string. -/
theorem c3_nv_operator_bug :
    (search_for_card_parse exampleState (("nv= v=X").toList) 2025).variant_name
        = ("v").toList ∧
    ("v").toList ≠ ([] : List Char) := by
  constructor
  · decide
  · decide

/-- C4: a two-digit year value is expanded to 2000 plus the value when it
is below the current year minus 2000 and to 1900 plus the value
otherwise, while values of 100 or more are taken as-is; concretely, with
current year 2025 the operator line y=24 yields 2024 and y=87 yields
1987. -/
theorem c4_two_digit_year_expansion (yy todayYear : Int) (h0 : 0 ≤ yy)
    (h99 : yy < 100) :
    expandYear yy todayYear =
      (if yy < todayYear - 2000 then 2000 + yy else 1900 + yy) ∧
    (∀ v : Int, 100 ≤ v → expandYear v todayYear = v) ∧
    (search_for_card_parse exampleState (("y=24").toList) 2025).year
        = YearV.i 2024 ∧
    (search_for_card_parse exampleState (("y=87").toList) 2025).year
        = YearV.i 1987 := by
  refine ⟨?_, ?_, by decide, by decide⟩
  · unfold expandYear
    rw [if_pos h99]
  · intro v hv
    unfold expandYear
    rw [if_neg (by omega)]

/-- Witness for c4_two_digit_year_expansion at the value 24 with current
year 2025. -/
theorem c4_two_digit_year_expansion_witness :
    expandYear 24 2025 =
      (if (24 : Int) < 2025 - 2000 then 2000 + 24 else 1900 + 24) :=
  (c4_two_digit_year_expansion 24 2025 (by decide) (by decide)).1

/-- C5: the claim states that a non-empty line with no recognized
operator leaves every field of the default query unchanged; in the code
such a line replaces the card name, so the name field changes. -/
theorem c5_parser_counterexample :
    search_for_card_parse exampleState (("Babe Ruth").toList) 2025
      ≠ exampleState := by
  decide

/-- C5 amended: a non-empty line matching no operator pattern and not
starting with a plus or equals sign replaces the card name with the line
and leaves the year, number, variant, trading-card and verbose fields
unchanged. -/
theorem c5_parser_no_operator_amended (st : SearchState) (line : List Char)
    (todayYear : Int) (hne : line ≠ [])
    (hplus : line.head? ≠ some '+') (heq : line.head? ≠ some '=')
    (ht : containsSub (("t=").toList) line = false)
    (hv : vSearch line = none)
    (hnv : containsSub (("nv=").toList) line = false)
    (hy : ySearch line = none)
    (hVc : containsSub (("V=").toList) line = false)
    (hnum : numSearch line = none) :
    search_for_card_parse st line todayYear = { st with card_name := line } := by
  have ht' : containsSub ('t' :: '=' :: []) line = false := ht
  have hnv' : containsSub ('n' :: 'v' :: '=' :: []) line = false := hnv
  have hVc' : containsSub ('V' :: '=' :: []) line = false := hVc
  simp only [search_for_card_parse]
  rw [if_neg hne]
  simp [ht', hplus, heq, hv, hnv', hy, hVc', hnum]

/-- Witness for c5_parser_no_operator_amended at the operator-free line
Babe Ruth. -/
theorem c5_parser_no_operator_amended_witness :
    search_for_card_parse exampleState (("Babe Ruth").toList) 2025
      = { exampleState with card_name := ("Babe Ruth").toList } :=
  c5_parser_no_operator_amended exampleState (("Babe Ruth").toList) 2025
    (by decide) (by decide) (by decide) (by decide) (by decide) (by decide)
    (by decide) (by decide) (by decide)

/-- C6: the claim states that every non-positive menu choice aborts the
selection with no record selected; in the code any integer input ends the
prompt loop (the validity test checks the always-empty range(len, 1)) and
the record at position choice minus one is taken with Python index
semantics, so the choice 0 selects the last survivor and the choice -1
the second-to-last; empty input defaulting to 1 and non-numeric
reprompting behave as claimed. -/
theorem c6_menu_nonpositive_choice_bug :
    selectFrom [mtPlain, mtRefractor] [("0").toList] = some mtRefractor ∧
    selectFrom [mtPlain, mtRefractor] [("-1").toList] = some mtPlain ∧
    menuChoice [[]] = some 1 ∧
    menuChoice [("abc").toList, ("2").toList] = some 2 ∧
    menuListing [mtPlain, mtRefractor] = [mtPlain, mtRefractor] := by
  refine ⟨by decide, by decide, by decide, by decide, by decide⟩

/-- C7: the claim states the operation aborts before the HTTP request
whenever the year is present but not a positive integer of plausible
range; the code only rejects a year containing a non-digit, so the
present, non-positive year 0 passes the gate and the outcome of the
lookup depends on the HTTP response. -/
theorem c7_fail_fast_counterexample :
    get_card_info (some (("k").toList)) (("x").toList) (("0").toList) [] false []
        false (HttpOutcome.ok [mtPlain]) [] = GciRet.listv [mtPlain] ∧
    get_card_info (some (("k").toList)) (("x").toList) (("0").toList) [] false []
        false HttpOutcome.fail [] = GciRet.intv 1 := by
  constructor
  · decide
  · decide

/-- C7 amended: get_card_info fails fast, independently of the HTTP
outcome, exactly on the checks the code makes: missing or empty API key,
empty card name, or a stripped year that is non-empty and not all
digits; positivity and range of the year are not checked. -/
theorem c7_fail_fast_amended (api_key : Option (List Char))
    (card_name year card_num : List Char) (trading_card : Bool)
    (variant_name : List Char) (verbose : Bool) (menuInputs : List (List Char))
    (h : api_key = none ∨ api_key = some [] ∨ card_name = [] ∨
      (stripList year ≠ [] ∧ ¬(stripList year).all Char.isDigit = true)) :
    ∀ outcome, get_card_info api_key card_name year card_num trading_card
      variant_name verbose outcome menuInputs = GciRet.intv 1 := by
  intro outcome
  simp only [get_card_info]
  rcases h with h | h | h | h
  · rw [if_pos (Or.inl h)]
  · rw [if_pos (Or.inr h)]
  · by_cases hk : api_key = none ∨ api_key = some []
    · rw [if_pos hk]
    · rw [if_neg hk, if_pos h]
  · by_cases hk : api_key = none ∨ api_key = some []
    · rw [if_pos hk]
    · rw [if_neg hk]
      by_cases hn : card_name = []
      · rw [if_pos hn]
      · rw [if_neg hn, if_pos h]

/-- Witness for c7_fail_fast_amended at the malformed year 20x1. -/
theorem c7_fail_fast_amended_witness :
    get_card_info (some (("k").toList)) (("x").toList) (("20x1").toList) []
        false [] false HttpOutcome.badJson [] = GciRet.intv 1 :=
  c7_fail_fast_amended (some (("k").toList)) (("x").toList) (("20x1").toList)
    [] false [] false []
    (Or.inr (Or.inr (Or.inr ⟨by decide, by decide⟩))) HttpOutcome.badJson

/-- C8: with the trading-card flag set, filtering is bypassed and every
product of the response batch is kept in upstream order; in particular a
bracketed product name survives. -/
theorem c8_trading_card_bypass (year card_num variant_name : List Char)
    (products : List Product) :
    filterProducts true year card_num variant_name products = products ∧
    filterProducts true year card_num variant_name [mtRefractor]
      = [mtRefractor] := by
  exact ⟨rfl, rfl⟩

/-- C9: when the camera read yields no frame, capture_card returns none
having emitted only the filter-disable effect, so the capture device is
not released and the Chroma Key filter is not re-enabled; on a frame both
the release and the re-enable occur. -/
theorem c9_capture_no_frame_effects
    (encodeOf : List Char → Option (List Char)) :
    (capture_card none encodeOf).2 = CapRet.none' ∧
    Effect.disableChroma ∈ (capture_card none encodeOf).1 ∧
    Effect.releaseCap ∉ (capture_card none encodeOf).1 ∧
    Effect.enableChroma ∉ (capture_card none encodeOf).1 ∧
    ∀ f, Effect.releaseCap ∈ (capture_card (some f) encodeOf).1 ∧
      Effect.enableChroma ∈ (capture_card (some f) encodeOf).1 := by
  refine ⟨rfl, by simp [capture_card], by simp [capture_card],
    by simp [capture_card], fun f => ⟨by simp [capture_card], by simp [capture_card]⟩⟩

/-- C10: the filter lowercases the product name but not the variant
value, so a variant value containing an uppercase character can never be
found in the lowercased name and every bracketed product is rejected,
even when the variant tag occurs in the product name in another letter
case; a variant match can succeed only for an all-lowercase value. -/
theorem c10_variant_case_sensitivity (year card_num variant_name : List Char)
    (p : Product) (hb : (lowerList p.Name).contains '[' = true)
    (hu : ∃ c ∈ variant_name, c.isUpper = true) :
    keepProduct year card_num variant_name p = false := by
  obtain ⟨c, hcv, hcu⟩ := hu
  have hcs : c ∈ stripList variant_name :=
    mem_stripList_of_mem hcv (isWhitespace_eq_false_of_isUpper hcu)
  have hvne : stripList variant_name ≠ [] := by
    intro he
    rw [he] at hcs
    exact absurd hcs (List.not_mem_nil c)
  have hnc : containsSub (stripList variant_name) (lowerList p.Name) = false :=
    containsSub_lowerList_eq_false ⟨c, hcs, hcu⟩
  simp only [keepProduct]
  split
  · rfl
  · split
    · rfl
    · rw [if_pos ⟨hb, hvne, hnc⟩]

/-- Witness for c10_variant_case_sensitivity: the variant Refractor,
holding an uppercase letter, rejects the bracketed example record even
though the tag Refractor occurs verbatim in the product name. -/
theorem c10_variant_case_sensitivity_witness :
    keepProduct (("2011").toList) [] (("Refractor").toList) mtRefractor = false :=
  c10_variant_case_sensitivity (("2011").toList) [] (("Refractor").toList)
    mtRefractor (by decide) ⟨'R', by decide, by decide⟩

end Gci
